import Mathlib

/-!
Verification of the RISC-V scalar cryptography wrapper module
(`crates/core_arch/src/riscv64/zk.rs`).

The module declares ten LLVM backend intrinsics and exposes ten public
wrapper functions over them.  Each wrapper reinterprets its unsigned
64-bit arguments as signed 64-bit values, calls the bound intrinsic, and
reinterprets the signed result back to unsigned.  The one wrapper with a
compile-time constant operand, `aes64ks1i`, additionally performs the
static check `static_assert!(RNUM <= 10)` before calling its intrinsic.

The intrinsic bodies live in the compiler backend, not in this
repository, so each wrapper is embedded as a function parameterised over
the intrinsic it calls (an arbitrary function on signed 64-bit values);
every theorem below holds for all such intrinsic functions.

Machine integers are modelled as `Nat`/`Int` with explicit reduction
modulo `2^64` (written as the literal `18446744073709551616`) where the
source reinterprets bits.
-/

namespace Zk

/-- Rust's `x as i64` applied to a `u64` value: reinterpret the 64 bits
of `x` as a signed two's-complement 64-bit integer.  Modelled on `Nat`
with an explicit reduction modulo `2^64`. -/
def i64ofU64 (x : Nat) : Int :=
  if x % 18446744073709551616 < 9223372036854775808 then
    ((x % 18446744073709551616 : Nat) : Int)
  else
    ((x % 18446744073709551616 : Nat) : Int) - 18446744073709551616

/-- Rust's `z as u64` applied to an `i64` value: reinterpret the 64 bits
of `z` as an unsigned 64-bit integer. -/
def u64ofI64 (z : Int) : Nat :=
  (z % 18446744073709551616).toNat

/-- Rust's `RNUM as i32` applied to a `u8` value: zero-extending
widening cast from 8 to 32 bits. -/
def i32ofU8 (x : Nat) : Int :=
  ((x % 256 : Nat) : Int)

/-- Wrapper `aes64es` from the source: body is
`_aes64es(rs1 as i64, rs2 as i64) as u64`.  The backend intrinsic
`_aes64es` is a parameter. -/
def aes64es (_aes64es : Int → Int → Int) (rs1 rs2 : Nat) : Nat :=
  u64ofI64 (_aes64es (i64ofU64 rs1) (i64ofU64 rs2))

/-- Wrapper `aes64esm` from the source: body is
`_aes64esm(rs1 as i64, rs2 as i64) as u64`. -/
def aes64esm (_aes64esm : Int → Int → Int) (rs1 rs2 : Nat) : Nat :=
  u64ofI64 (_aes64esm (i64ofU64 rs1) (i64ofU64 rs2))

/-- Wrapper `aes64ds` from the source: body is
`_aes64ds(rs1 as i64, rs2 as i64) as u64`. -/
def aes64ds (_aes64ds : Int → Int → Int) (rs1 rs2 : Nat) : Nat :=
  u64ofI64 (_aes64ds (i64ofU64 rs1) (i64ofU64 rs2))

/-- Wrapper `aes64dsm` from the source: body is
`_aes64dsm(rs1 as i64, rs2 as i64) as u64`. -/
def aes64dsm (_aes64dsm : Int → Int → Int) (rs1 rs2 : Nat) : Nat :=
  u64ofI64 (_aes64dsm (i64ofU64 rs1) (i64ofU64 rs2))

/-- The static check of `aes64ks1i` in the source:
`static_assert!(RNUM <= 10)`.  It is evaluated on the compile-time
constant `RNUM`; `true` means the instantiation compiles, `false` means
it is rejected at compile time. -/
def rnumAccepted (RNUM : Nat) : Bool :=
  decide (RNUM ≤ 10)

/-- Wrapper `aes64ks1i` from the source: after the static check, the
body is `_aes64ks1i(rs1 as i64, RNUM as i32) as u64`.  `none` models an
instantiation rejected at compile time by `static_assert!`; there is no
runtime failure path. -/
def aes64ks1i (_aes64ks1i : Int → Int → Int) (RNUM : Nat) (rs1 : Nat) : Option Nat :=
  if rnumAccepted RNUM then
    some (u64ofI64 (_aes64ks1i (i64ofU64 rs1) (i32ofU8 RNUM)))
  else
    none

/-- Wrapper `aes64ks2` from the source: body is
`_aes64ks2(rs1 as i64, rs2 as i64) as u64`. -/
def aes64ks2 (_aes64ks2 : Int → Int → Int) (rs1 rs2 : Nat) : Nat :=
  u64ofI64 (_aes64ks2 (i64ofU64 rs1) (i64ofU64 rs2))

/-- Wrapper `sha512sig0` from the source: body is
`_sha512sig0(rs1 as i64) as u64`. -/
def sha512sig0 (_sha512sig0 : Int → Int) (rs1 : Nat) : Nat :=
  u64ofI64 (_sha512sig0 (i64ofU64 rs1))

/-- Wrapper `sha512sig1` from the source: body is
`_sha512sig1(rs1 as i64) as u64`. -/
def sha512sig1 (_sha512sig1 : Int → Int) (rs1 : Nat) : Nat :=
  u64ofI64 (_sha512sig1 (i64ofU64 rs1))

/-- Wrapper `sha512sum0` from the source: body is
`_sha512sum0(rs1 as i64) as u64`. -/
def sha512sum0 (_sha512sum0 : Int → Int) (rs1 : Nat) : Nat :=
  u64ofI64 (_sha512sum0 (i64ofU64 rs1))

/-- Wrapper `sha512sum1` from the source: body is
`_sha512sum1(rs1 as i64) as u64`. -/
def sha512sum1 (_sha512sum1 : Int → Int) (rs1 : Nat) : Nat :=
  u64ofI64 (_sha512sum1 (i64ofU64 rs1))

/-- The shape the spec prescribes for a one-operand wrapper: apply the
single bound intrinsic to the input reinterpreted as signed 64-bit, and
reinterpret the signed result back to unsigned.  Written from the spec's
words, to be compared with the wrappers embedded from the source. -/
def specUnaryWrap (intrin : Int → Int) (x : Nat) : Nat :=
  u64ofI64 (intrin (i64ofU64 x))

/-- The shape the spec prescribes for a two-operand wrapper: first
argument as first operand, second argument as second operand, signed
reinterpretation around the single intrinsic call, nothing else.
Written from the spec's words. -/
def specBinaryWrap (intrin : Int → Int → Int) (x y : Nat) : Nat :=
  u64ofI64 (intrin (i64ofU64 x) (i64ofU64 y))

/-- One backend intrinsic declaration from the `extern "unadjusted"`
block: its LLVM link name, its number of `i64` arguments and its number
of `i32` immediate arguments. -/
structure IntrinsicDecl where
  link_name : String
  i64Args : Nat
  i32Imms : Nat
deriving DecidableEq

/-- The ten intrinsic declarations of the `extern "unadjusted"` block,
in source order. -/
def intrinsicDecls : List IntrinsicDecl :=
  [⟨"llvm.riscv.aes64es", 2, 0⟩,
   ⟨"llvm.riscv.aes64esm", 2, 0⟩,
   ⟨"llvm.riscv.aes64ds", 2, 0⟩,
   ⟨"llvm.riscv.aes64dsm", 2, 0⟩,
   ⟨"llvm.riscv.aes64ks1i", 1, 1⟩,
   ⟨"llvm.riscv.aes64ks2", 2, 0⟩,
   ⟨"llvm.riscv.sha512sig0", 1, 0⟩,
   ⟨"llvm.riscv.sha512sig1", 1, 0⟩,
   ⟨"llvm.riscv.sha512sum0", 1, 0⟩,
   ⟨"llvm.riscv.sha512sum1", 1, 0⟩]

/-- One public wrapper function declaration: its exported name, the link
name of the one intrinsic its body calls, the target features of its
`#[target_feature(enable = ...)]` attribute, whether the source declares
it with the keyword marking the caller-side safety contract (every
wrapper in the source is such a function), whether its body performs any
runtime capability or range check (none does; the only check is the
compile-time `static_assert!`), its number of `u64` register arguments,
and its number of compile-time `u8` const-generic operands. -/
structure PublicFn where
  name : String
  calledIntrinsic : String
  targetFeatures : List String
  requiresCallerContract : Bool
  hasRuntimeCheck : Bool
  u64Args : Nat
  constU8Args : Nat
deriving DecidableEq

/-- Declaration record of `aes64es` as written in the source. -/
def aes64es_decl : PublicFn :=
  ⟨"aes64es", "llvm.riscv.aes64es", ["zkne"], true, false, 2, 0⟩

/-- Declaration record of `aes64esm` as written in the source. -/
def aes64esm_decl : PublicFn :=
  ⟨"aes64esm", "llvm.riscv.aes64esm", ["zkne"], true, false, 2, 0⟩

/-- Declaration record of `aes64ds` as written in the source. -/
def aes64ds_decl : PublicFn :=
  ⟨"aes64ds", "llvm.riscv.aes64ds", ["zknd"], true, false, 2, 0⟩

/-- Declaration record of `aes64dsm` as written in the source. -/
def aes64dsm_decl : PublicFn :=
  ⟨"aes64dsm", "llvm.riscv.aes64dsm", ["zknd"], true, false, 2, 0⟩

/-- Declaration record of `aes64ks1i` as written in the source. -/
def aes64ks1i_decl : PublicFn :=
  ⟨"aes64ks1i", "llvm.riscv.aes64ks1i", ["zkne", "zknd"], true, false, 1, 1⟩

/-- Declaration record of `aes64ks2` as written in the source. -/
def aes64ks2_decl : PublicFn :=
  ⟨"aes64ks2", "llvm.riscv.aes64ks2", ["zkne", "zknd"], true, false, 2, 0⟩

/-- Declaration record of `sha512sig0` as written in the source. -/
def sha512sig0_decl : PublicFn :=
  ⟨"sha512sig0", "llvm.riscv.sha512sig0", ["zknh"], true, false, 1, 0⟩

/-- Declaration record of `sha512sig1` as written in the source. -/
def sha512sig1_decl : PublicFn :=
  ⟨"sha512sig1", "llvm.riscv.sha512sig1", ["zknh"], true, false, 1, 0⟩

/-- Declaration record of `sha512sum0` as written in the source. -/
def sha512sum0_decl : PublicFn :=
  ⟨"sha512sum0", "llvm.riscv.sha512sum0", ["zknh"], true, false, 1, 0⟩

/-- Declaration record of `sha512sum1` as written in the source. -/
def sha512sum1_decl : PublicFn :=
  ⟨"sha512sum1", "llvm.riscv.sha512sum1", ["zknh"], true, false, 1, 0⟩

/-- The ten public wrapper functions of the module, in source order. -/
def publicFns : List PublicFn :=
  [aes64es_decl, aes64esm_decl, aes64ds_decl, aes64dsm_decl,
   aes64ks1i_decl, aes64ks2_decl,
   sha512sig0_decl, sha512sig1_decl, sha512sum0_decl, sha512sum1_decl]

/-- The result of the unsigned reinterpretation is always a valid
unsigned 64-bit value. -/
theorem u64ofI64_lt (z : Int) : u64ofI64 z < 18446744073709551616 := by
  unfold u64ofI64
  omega

/-- C1: the key-schedule round function `aes64ks1i` passes its static
check (and hence compiles, with the instantiation producing a value) for
every constant `RNUM` in `0` through `10`, and fails the static check
(is rejected at compile time, never at runtime) for every constant in
`11` through `15`. -/
theorem aes64ks1i_const_range (RNUM : Nat) (g : Int → Int → Int) (rs1 : Nat) :
    (RNUM ≤ 10 → rnumAccepted RNUM = true ∧ (aes64ks1i g RNUM rs1).isSome = true) ∧
    (11 ≤ RNUM → RNUM ≤ 15 → rnumAccepted RNUM = false ∧ aes64ks1i g RNUM rs1 = none) := by
  constructor
  · intro h
    have ha : rnumAccepted RNUM = true := by simp [rnumAccepted, h]
    exact ⟨ha, by simp [aes64ks1i, ha]⟩
  · intro h1 h2
    have ha : rnumAccepted RNUM = false := by
      simp only [rnumAccepted, decide_eq_false_iff_not]
      omega
    exact ⟨ha, by simp [aes64ks1i, ha]⟩

/-- Witness for C1 at the concrete constants `10` (accepted) and `12`
(rejected). -/
theorem aes64ks1i_const_range_witness :
    ((10 : Nat) ≤ 10 ∧ rnumAccepted 10 = true ∧
      (aes64ks1i (fun a _ => a) 10 7).isSome = true) ∧
    ((11 : Nat) ≤ 12 ∧ (12 : Nat) ≤ 15 ∧ rnumAccepted 12 = false ∧
      aes64ks1i (fun a _ => a) 12 7 = none) := by
  have hA := (aes64ks1i_const_range 10 (fun a _ => a) 7).1 (by decide)
  have hB := (aes64ks1i_const_range 12 (fun a _ => a) 7).2 (by decide) (by decide)
  exact ⟨⟨by decide, hA.1, hA.2⟩, ⟨by decide, by decide, hB.1, hB.2⟩⟩

/-- C2: every public wrapper equals its single bound intrinsic applied
to the inputs reinterpreted as signed 64-bit values, with the signed
result reinterpreted back to unsigned, first argument as first operand
and second argument (when present) as second operand, and no other
computation; `aes64ks1i` additionally performs only its compile-time
range check before the same shape of call. -/
theorem wrappers_refine_spec (e em d dm k2 g : Int → Int → Int)
    (s0 s1 m0 m1 : Int → Int) (x y RNUM : Nat) (h : RNUM ≤ 10) :
    aes64es e x y = specBinaryWrap e x y ∧
    aes64esm em x y = specBinaryWrap em x y ∧
    aes64ds d x y = specBinaryWrap d x y ∧
    aes64dsm dm x y = specBinaryWrap dm x y ∧
    aes64ks2 k2 x y = specBinaryWrap k2 x y ∧
    sha512sig0 s0 x = specUnaryWrap s0 x ∧
    sha512sig1 s1 x = specUnaryWrap s1 x ∧
    sha512sum0 m0 x = specUnaryWrap m0 x ∧
    sha512sum1 m1 x = specUnaryWrap m1 x ∧
    aes64ks1i g RNUM x = some (u64ofI64 (g (i64ofU64 x) (i32ofU8 RNUM))) := by
  refine ⟨rfl, rfl, rfl, rfl, rfl, rfl, rfl, rfl, rfl, ?_⟩
  have ha : rnumAccepted RNUM = true := by simp [rnumAccepted, h]
  simp [aes64ks1i, ha]

/-- Witness for C2 at concrete intrinsic functions and inputs. -/
theorem wrappers_refine_spec_witness :
    (0 : Nat) ≤ 10 ∧
    aes64es (fun a b => a + b) 1 2 = specBinaryWrap (fun a b => a + b) 1 2 ∧
    sha512sig0 (fun a => a * 3) 1 = specUnaryWrap (fun a => a * 3) 1 ∧
    aes64ks1i (fun a b => a + b) 0 1 =
      some (u64ofI64 ((fun a b => a + b : Int → Int → Int)
        (i64ofU64 1) (i32ofU8 0))) := by
  have H := wrappers_refine_spec (fun a b => a + b) (fun a b => a + b)
    (fun a b => a + b) (fun a b => a + b) (fun a b => a + b) (fun a b => a + b)
    (fun a => a * 3) (fun a => a * 3) (fun a => a * 3) (fun a => a * 3)
    1 2 0 (by decide)
  exact ⟨by decide, H.1, H.2.2.2.2.2.1, H.2.2.2.2.2.2.2.2.2⟩

/-- C3: every public function is deterministic: applied to identical
inputs (and the same bound intrinsic), two invocations yield identical
outputs.  The functions are embedded as pure functions because their
source bodies consist only of casts and a single intrinsic call: they
read or write no shared mutable state and have no side effects. -/
theorem wrappers_deterministic (e em d dm k2 g : Int → Int → Int)
    (s0 s1 m0 m1 : Int → Int) (x1 x2 y1 y2 R1 R2 : Nat)
    (hx : x1 = x2) (hy : y1 = y2) (hR : R1 = R2) :
    aes64es e x1 y1 = aes64es e x2 y2 ∧
    aes64esm em x1 y1 = aes64esm em x2 y2 ∧
    aes64ds d x1 y1 = aes64ds d x2 y2 ∧
    aes64dsm dm x1 y1 = aes64dsm dm x2 y2 ∧
    aes64ks1i g R1 x1 = aes64ks1i g R2 x2 ∧
    aes64ks2 k2 x1 y1 = aes64ks2 k2 x2 y2 ∧
    sha512sig0 s0 x1 = sha512sig0 s0 x2 ∧
    sha512sig1 s1 x1 = sha512sig1 s1 x2 ∧
    sha512sum0 m0 x1 = sha512sum0 m0 x2 ∧
    sha512sum1 m1 x1 = sha512sum1 m1 x2 := by
  subst hx; subst hy; subst hR
  exact ⟨rfl, rfl, rfl, rfl, rfl, rfl, rfl, rfl, rfl, rfl⟩

/-- Witness for C3 at concrete intrinsic functions and inputs. -/
theorem wrappers_deterministic_witness :
    (5 : Nat) = 5 ∧
    aes64es (fun a b => a - b) 5 6 = aes64es (fun a b => a - b) 5 6 ∧
    aes64ks1i (fun a b => a - b) 4 5 = aes64ks1i (fun a b => a - b) 4 5 := by
  have H := wrappers_deterministic (fun a b => a - b) (fun a b => a - b)
    (fun a b => a - b) (fun a b => a - b) (fun a b => a - b) (fun a b => a - b)
    (fun a => a) (fun a => a) (fun a => a) (fun a => a)
    5 5 6 6 4 4 rfl rfl rfl
  exact ⟨rfl, H.1, H.2.2.2.2.1⟩

/-- C4: no operation fails at runtime.  Each of the nine unconditional
wrappers always returns a valid unsigned 64-bit value, for every input
and every intrinsic.  `aes64ks1i` returns a value exactly when its
compile-time constant passes the static check (`RNUM ≤ 10`): the only
failure mode of the interface is that compile-time rejection. -/
theorem wrappers_no_runtime_failure (e em d dm k2 g : Int → Int → Int)
    (s0 s1 m0 m1 : Int → Int) (x y RNUM : Nat) :
    aes64es e x y < 18446744073709551616 ∧
    aes64esm em x y < 18446744073709551616 ∧
    aes64ds d x y < 18446744073709551616 ∧
    aes64dsm dm x y < 18446744073709551616 ∧
    aes64ks2 k2 x y < 18446744073709551616 ∧
    sha512sig0 s0 x < 18446744073709551616 ∧
    sha512sig1 s1 x < 18446744073709551616 ∧
    sha512sum0 m0 x < 18446744073709551616 ∧
    sha512sum1 m1 x < 18446744073709551616 ∧
    ((aes64ks1i g RNUM x).isSome = true ↔ RNUM ≤ 10) := by
  refine ⟨u64ofI64_lt _, u64ofI64_lt _, u64ofI64_lt _, u64ofI64_lt _,
    u64ofI64_lt _, u64ofI64_lt _, u64ofI64_lt _, u64ofI64_lt _, u64ofI64_lt _, ?_⟩
  by_cases h : RNUM ≤ 10 <;> simp [aes64ks1i, rnumAccepted, h]

/-- C5: the signed/unsigned reinterpretation is bit-preserving at
64-bit width: every unsigned 64-bit value round-trips unchanged through
the cast to signed and back, and every signed 64-bit value (an
intrinsic's result) round-trips unchanged through the cast to unsigned
and back, with no truncation, extension, or value change. -/
theorem cast_roundtrip (x : Nat) (z : Int)
    (hx : x < 18446744073709551616)
    (hz1 : -9223372036854775808 ≤ z) (hz2 : z < 9223372036854775808) :
    u64ofI64 (i64ofU64 x) = x ∧ i64ofU64 (u64ofI64 z) = z := by
  constructor
  · unfold i64ofU64 u64ofI64
    split <;> omega
  · unfold u64ofI64 i64ofU64
    split <;> omega

/-- Witness for C5 at a concrete unsigned value and a concrete negative
signed value. -/
theorem cast_roundtrip_witness :
    (18446744073709551615 : Nat) < 18446744073709551616 ∧
    (-9223372036854775808 : Int) ≤ -5 ∧ (-5 : Int) < 9223372036854775808 ∧
    u64ofI64 (i64ofU64 18446744073709551615) = 18446744073709551615 ∧
    i64ofU64 (u64ofI64 (-5)) = -5 := by
  have H := cast_roundtrip 18446744073709551615 (-5) (by norm_num) (by norm_num) (by norm_num)
  exact ⟨by norm_num, by norm_num, by norm_num, H.1, H.2⟩

/-- C7: every public function is declared with the caller-side safety
contract keyword and is gated by a nonempty target-feature capability
guard, and none performs a runtime capability check: absence of the
capability is a documented usage-contract violation, not a runtime
error. -/
theorem publicFns_capability_guarded :
    ∀ f ∈ publicFns, f.requiresCallerContract = true ∧
      f.targetFeatures ≠ [] ∧ f.hasRuntimeCheck = false := by
  decide

/-- Witness for C7 at the concrete declaration record of `aes64es`. -/
theorem publicFns_capability_guarded_witness :
    aes64es_decl ∈ publicFns ∧
    (aes64es_decl.requiresCallerContract = true ∧
      aes64es_decl.targetFeatures ≠ [] ∧ aes64es_decl.hasRuntimeCheck = false) :=
  ⟨by decide, publicFns_capability_guarded aes64es_decl (by decide)⟩

/-- C8: for every `RNUM` accepted by the static check (`RNUM ≤ 10`),
the `u8`-to-`i32` widening cast is exact: the 32-bit immediate the
intrinsic receives equals `RNUM` numerically, is non-negative, lies in
`0` through `10`, fits in a signed 32-bit word, and `aes64ks1i` passes
exactly that value to its intrinsic as second operand. -/
theorem aes64ks1i_immediate_exact (RNUM : Nat) (h : RNUM ≤ 10)
    (g : Int → Int → Int) (rs1 : Nat) :
    i32ofU8 RNUM = (RNUM : Int) ∧ 0 ≤ i32ofU8 RNUM ∧ i32ofU8 RNUM ≤ 10 ∧
    i32ofU8 RNUM < 2147483648 ∧
    aes64ks1i g RNUM rs1 = some (u64ofI64 (g (i64ofU64 rs1) ((RNUM : Nat) : Int))) := by
  have hmod : RNUM % 256 = RNUM := by omega
  have ha : rnumAccepted RNUM = true := by simp [rnumAccepted, h]
  refine ⟨?_, ?_, ?_, ?_, ?_⟩
  · simp only [i32ofU8]; omega
  · simp only [i32ofU8]; omega
  · simp only [i32ofU8]; omega
  · simp only [i32ofU8]; omega
  · simp [aes64ks1i, ha, i32ofU8, hmod]

/-- Witness for C8 at the concrete constant `10`. -/
theorem aes64ks1i_immediate_exact_witness :
    (10 : Nat) ≤ 10 ∧ i32ofU8 10 = (10 : Int) ∧
    aes64ks1i (fun a b => a + b) 10 3 =
      some (u64ofI64 ((fun a b => a + b : Int → Int → Int)
        (i64ofU64 3) ((10 : Nat) : Int))) := by
  have H := aes64ks1i_immediate_exact 10 (by decide) (fun a b => a + b) 3
  exact ⟨by decide, H.1, H.2.2.2.2⟩

/-- C9: the catalog maps one-to-one onto hardware instructions: there
are exactly ten public functions and exactly ten declared backend
intrinsics, the intrinsic link names are pairwise distinct, each public
function calls exactly one declared intrinsic, and no two public
functions call the same intrinsic. -/
theorem catalog_one_to_one :
    intrinsicDecls.length = 10 ∧ publicFns.length = 10 ∧
    (intrinsicDecls.map IntrinsicDecl.link_name).Nodup ∧
    (publicFns.map PublicFn.calledIntrinsic).Nodup ∧
    ∀ f ∈ publicFns, f.calledIntrinsic ∈ intrinsicDecls.map IntrinsicDecl.link_name := by
  decide

/-- Witness for C9 at the concrete declaration record of `sha512sum1`. -/
theorem catalog_one_to_one_witness :
    sha512sum1_decl ∈ publicFns ∧
    sha512sum1_decl.calledIntrinsic ∈ intrinsicDecls.map IntrinsicDecl.link_name :=
  ⟨by decide, catalog_one_to_one.2.2.2.2 sha512sum1_decl (by decide)⟩

/-- C10: over the whole `u8` parameter type, the static check accepts
exactly the constants `0` through `10`: every constant from `11`
through `255` is rejected at compile time (not only the reserved values
`11` through `15`), and negative round numbers are unrepresentable in
the parameter type. -/
theorem rnum_acceptance_full_u8 (RNUM : Nat) (h : RNUM < 256) :
    (rnumAccepted RNUM = true ↔ RNUM ≤ 10) ∧
    (11 ≤ RNUM → rnumAccepted RNUM = false ∧
      ∀ g : Int → Int → Int, ∀ rs1 : Nat, aes64ks1i g RNUM rs1 = none) := by
  constructor
  · simp [rnumAccepted]
  · intro h11
    have ha : rnumAccepted RNUM = false := by
      simp only [rnumAccepted, decide_eq_false_iff_not]
      omega
    exact ⟨ha, fun g rs1 => by simp [aes64ks1i, ha]⟩

/-- Witness for C10 at the largest `u8` constant, `255`. -/
theorem rnum_acceptance_full_u8_witness :
    (255 : Nat) < 256 ∧ (11 : Nat) ≤ 255 ∧
    rnumAccepted 255 = false ∧ aes64ks1i (fun a _ => a) 255 0 = none := by
  have H := (rnum_acceptance_full_u8 255 (by decide)).2 (by decide)
  exact ⟨by decide, by decide, H.1, H.2 (fun a _ => a) 0⟩

end Zk
